import Mathlib

/-!
Verification development for the `flash_sale` repository: a shallow
embedding of the reservation / relay / fulfillment pipeline
(`internal/router/router.go`, `internal/queue/consumer.go`,
`internal/queue` relay, `pkg/redis/keys.go`) together with theorems
settling the behavioural claims about it.

Machine integers of the Go source (`int`, `int64`) are modelled as `Int`,
`uint` product ids as `Nat`; none of the relevant code paths overflow.
Redis string-integer values are `Int` (`GET` of a missing key reads as 0,
as in the Lua scripts).  Fallible database operations that the claims
depend on are modelled with explicit result types; infrastructure faults
(network errors) are outside the embedded state.
-/

namespace FlashSale

/-- Kafka order-creation event, from `internal/queue/order_msg.go`
(`OrderMessage`). -/
structure OrderMessage where
  requestID : String
  productID : Nat
  userID : Int
  quantity : Int
  amount : Int
deriving DecidableEq, Repr

/-- `OrderMessage.Validate` from `internal/queue/order_msg.go`: minimal
field validation, mirrored branch by branch (each Go `return err` becomes
`false`). -/
def OrderMessage.validate (m : OrderMessage) : Bool :=
  if m.requestID = "" then false
  else if m.productID = 0 then false
  else if m.userID ≤ 0 then false
  else if m.quantity ≤ 0 then false
  else if m.amount ≤ 0 then false
  else true

/-- Redis integer keyspace as an association list; the most recent binding
wins (Redis `SET`/`DECRBY`/`INCRBY` overwrite). -/
abbrev StockStore := List (Nat × Int)

/-- Redis GET defaulted to zero: a missing stock key reads as 0, exactly
as the Lua script reads it (tonumber of GET, defaulting to zero). -/
def stockGet (s : StockStore) (pid : Nat) : Int :=
  match s.find? (fun e => e.1 == pid) with
  | some e => e.2
  | none => 0

/-- Write a stock value (newest binding shadows older ones). -/
def stockSet (s : StockStore) (pid : Nat) (v : Int) : StockStore :=
  (pid, v) :: s

/-- `luaDecrStock` from `internal/router/router.go`: atomically read the
stock counter, compare with the decrement, `DECRBY` when sufficient,
otherwise return -1 and write nothing.  Returns (script result, store
after the script). -/
def luaDecrStock (s : StockStore) (pid : Nat) (decr : Int) : Int × StockStore :=
  let current := stockGet s pid
  if current ≥ decr then
    (current - decr, stockSet s pid (current - decr))
  else
    (-1, s)

/-- Redis state used by the consumer-side compensation
(`pkg/redis/keys.go`): the stock counters plus the set of
`flash_sale:stock:compensated:<request_id>` lock keys. -/
structure KV where
  stock : StockStore
  compLocks : List String
deriving DecidableEq, Repr

/-- `luaCompensateStockOnce` / `CompensateStockOnce` from
`pkg/redis/keys.go`: `SETNX` on the per-request compensation lock; when
acquired, `INCRBY` the stock key and report `true`, otherwise report
`false` and change nothing.  (The 7-day lock TTL is not modelled: no
claim spans lock expiry.) -/
def compensateStockOnce (kv : KV) (rid : String) (pid : Nat) (q : Int) : Bool × KV :=
  if kv.compLocks.contains rid then
    (false, kv)
  else
    (true,
      { stock := stockSet kv.stock pid (stockGet kv.stock pid + q)
        compLocks := rid :: kv.compLocks })

/-- `OrderRequestStatus` from `internal/model/order_request.go`. -/
inductive OrderRequestStatus where
  | pending
  | success
  | failed
deriving DecidableEq, Repr

/-- `model.OrderRequest` row (`internal/model/order_request.go`); the
gorm bookkeeping columns (id, timestamps, soft delete) carry no claim
content and are omitted. -/
structure OrderRequestRow where
  requestID : String
  userID : Int
  productID : Nat
  quantity : Int
  amount : Int
  status : OrderRequestStatus
  orderNo : String
  errorMsg : String
deriving DecidableEq, Repr

/-- `model.Order` row (`internal/model/order.go`). -/
structure OrderRow where
  orderNo : String
  userID : Int
  productID : Nat
  quantity : Int
  amount : Int
  status : Int
  requestID : String
deriving DecidableEq, Repr

/-- The relational state the consumer works against: the `order_requests`
and `orders` tables. -/
structure DB where
  requests : List OrderRequestRow
  orders : List OrderRow
deriving DecidableEq, Repr

/-- `SELECT ... WHERE request_id = ? LIMIT 1` on `order_requests`. -/
def findRequest (db : DB) (rid : String) : Option OrderRequestRow :=
  db.requests.find? (fun r => r.requestID == rid)

/-- `SELECT ... WHERE request_id = ? LIMIT 1` on `orders`. -/
def findOrderByRequest (db : DB) (rid : String) : Option OrderRow :=
  db.orders.find? (fun o => o.requestID == rid)

/-- `SELECT ... WHERE user_id = ? AND product_id = ? LIMIT 1` on `orders`. -/
def findOrderByUserProduct (db : DB) (uid : Int) (pid : Nat) : Option OrderRow :=
  db.orders.find? (fun o => o.userID == uid && o.productID == pid)

/-- Unique-constraint violation test for an `orders` insert: `order_no`
and `request_id` are the unique indexes declared by `model/order.go`
(`user_id` and `product_id` carry only plain, non-unique indexes there,
so they cannot trigger an insert conflict). -/
def orderInsertConflict (db : DB) (o : OrderRow) : Bool :=
  db.orders.any (fun e =>
    e.orderNo == o.orderNo || e.requestID == o.requestID)

/-- The guarded (CAS-on-pending) finalization used inside
`createOrderAndMarkSuccess`: UPDATE of status, order_no and a cleared
error_msg, restricted to `request_id = ? AND status = pending`. -/
def casFinalizeRequest (rs : List OrderRequestRow) (rid : String)
    (st : OrderRequestStatus) (ono : String) : List OrderRequestRow :=
  rs.map (fun r =>
    if r.requestID = rid ∧ r.status = OrderRequestStatus.pending then
      { r with status := st, orderNo := ono, errorMsg := "" }
    else r)

/-- `markRequestFailed` from `internal/queue/consumer.go`: CAS
`pending → failed` with a reason; terminal rows are untouched (the
`status = pending` guard). -/
def markRequestFailed (db : DB) (rid : String) (reason : String) : DB :=
  { db with requests := db.requests.map (fun r =>
      if r.requestID = rid ∧ r.status = OrderRequestStatus.pending then
        { r with status := OrderRequestStatus.failed, errorMsg := reason }
      else r) }

/-- `syncRequestStatusFromOrder` from `internal/queue/consumer.go`: look
up the order by request id and, when present, update the request row to
`success` with that order number.  NOTE: the Go `UPDATE ... WHERE
request_id = ?` carries no `status = pending` guard — mirrored here. -/
def syncRequestStatusFromOrder (db : DB) (rid : String) : DB :=
  match findOrderByRequest db rid with
  | none => db
  | some o =>
      { db with requests := db.requests.map (fun r =>
          if r.requestID = rid then
            { r with
                status := OrderRequestStatus.success
                orderNo := o.orderNo
                errorMsg := "" }
          else r) }

/-- `buildOrderNo` from `internal/queue/consumer.go`:
`"SK" + strings.ReplaceAll(requestID, "-", "")` (single-character pattern,
hence a character filter). -/
def buildOrderNo (rid : String) : String :=
  "SK" ++ String.mk (rid.data.filter (fun c => c ≠ '-'))

/-- `createMissingFailedRequest` from `internal/queue/consumer.go`:
insert a `failed(reason)` row with `ON CONFLICT (request_id) DO NOTHING`. -/
def createMissingFailedRequest (db : DB) (m : OrderMessage) (reason : String) : DB :=
  if (findRequest db m.requestID).isSome then db
  else
    { db with requests :=
        { requestID := m.requestID
          userID := m.userID
          productID := m.productID
          quantity := m.quantity
          amount := m.amount
          status := OrderRequestStatus.failed
          orderNo := ""
          errorMsg := reason } :: db.requests }

/-- Business / driver errors escaping the create-and-finalize
transaction: `errDuplicatePurchase`, a unique-violation error
(`errorsLikeUnique`), or the row-lock `First` finding no row. -/
inductive TxErr where
  | duplicatePurchase
  | uniqueLike
  | notFound
deriving DecidableEq, Repr

/-- `createOrderAndMarkSuccess` from `internal/queue/consumer.go`: in one
transaction, re-read the request row under a row lock, short-circuit on a
terminal status, insert the order, and on a unique conflict branch into
the `request_id`-conflict CAS sync or the duplicate-purchase rejection.
An error return rolls the transaction back (the input `db` is returned
unchanged inside the `Except.error`). -/
def createOrderAndMarkSuccess (db : DB) (m : OrderMessage) : Except TxErr DB :=
  match findRequest db m.requestID with
  | none => Except.error TxErr.notFound
  | some req =>
    if req.status = OrderRequestStatus.success ∨ req.status = OrderRequestStatus.failed then
      Except.ok db
    else
      let ono := buildOrderNo m.requestID
      let order : OrderRow :=
        { orderNo := ono, userID := m.userID, productID := m.productID
          quantity := m.quantity, amount := m.amount, status := 0
          requestID := m.requestID }
      if orderInsertConflict db order then
        match findOrderByRequest db m.requestID with
        | some exist =>
            Except.ok { db with requests :=
              casFinalizeRequest db.requests m.requestID OrderRequestStatus.success exist.orderNo }
        | none =>
            match findOrderByUserProduct db m.userID m.productID with
            | some _ => Except.error TxErr.duplicatePurchase
            | none => Except.error TxErr.uniqueLike
      else
        Except.ok
          { requests := casFinalizeRequest db.requests m.requestID OrderRequestStatus.success ono
            orders := order :: db.orders }

/-- Whether the consumer commits the Kafka offset for the message
(`processMessage` returned nil) or leaves it for redelivery. -/
inductive ProcOutcome where
  | committed
  | redeliver
deriving DecidableEq, Repr

/-- Result of one `processMessage` call: offset decision plus the states
after the call. -/
structure ConsumerOut where
  outcome : ProcOutcome
  db : DB
  kv : KV
deriving DecidableEq, Repr

/-- `processMessage` from `internal/queue/consumer.go`.  The Kafka
payload is the `json.Unmarshal` result: `none` embeds a payload that
fails JSON decoding.  Mirrors the Go control flow: poison messages are
skipped but committed; a missing request row is self-healed with a
synthesized failed row plus compensation; terminal rows short-circuit;
transaction errors branch into the duplicate-purchase and unique-conflict
reconciliation paths. -/
def processMessage (db : DB) (kv : KV) (raw : Option OrderMessage) : ConsumerOut :=
  match raw with
  | none => ⟨ProcOutcome.committed, db, kv⟩
  | some m =>
    if m.validate = false then ⟨ProcOutcome.committed, db, kv⟩
    else
      match findRequest db m.requestID with
      | none =>
          let db1 := createMissingFailedRequest db m "request_state_missing"
          let kv1 := (compensateStockOnce kv m.requestID m.productID m.quantity).2
          ⟨ProcOutcome.committed, db1, kv1⟩
      | some req =>
        if req.status = OrderRequestStatus.success ∨ req.status = OrderRequestStatus.failed then
          ⟨ProcOutcome.committed, db, kv⟩
        else
          match createOrderAndMarkSuccess db m with
          | Except.ok db1 => ⟨ProcOutcome.committed, db1, kv⟩
          | Except.error TxErr.duplicatePurchase =>
              let db1 := markRequestFailed db m.requestID "duplicate_purchase"
              let kv1 := (compensateStockOnce kv m.requestID m.productID m.quantity).2
              ⟨ProcOutcome.committed, db1, kv1⟩
          | Except.error TxErr.uniqueLike =>
              ⟨ProcOutcome.committed, syncRequestStatusFromOrder db m.requestID, kv⟩
          | Except.error TxErr.notFound => ⟨ProcOutcome.redeliver, db, kv⟩

/-- `model.Product` (`internal/model/product.go`); the sale window
timestamps are modelled as integer instants. -/
structure Product where
  id : Nat
  salePrice : Int
  startTime : Int
  endTime : Int
deriving DecidableEq, Repr

/-- `db.First(&prod, productID)` on `products`. -/
def findProduct (ps : List Product) (pid : Nat) : Option Product :=
  ps.find? (fun p => p.id == pid)

/-- State visible to the HTTP buy handler of
`internal/router/router.go`: products and orders tables, the Redis stock
counters, and the Kafka topic as the list of published messages. -/
structure SrvState where
  products : List Product
  orders : List OrderRow
  stock : StockStore
  kafka : List OrderMessage
deriving DecidableEq, Repr

/-- The distinct responses of `secKill` (`internal/router/router.go`),
one constructor per `c.JSON` site on the handler path. -/
inductive SecKillResp where
  /-- 400: body binding failed (`binding:"required"` rejects zero values). -/
  | invalidBody
  /-- 404: product not found. -/
  | productNotFound
  /-- 400: now outside the `[start, end]` sale window. -/
  | notInWindow
  /-- 400: the user already has a non-cancelled order for the product. -/
  | alreadyBought
  /-- 400: `luaDecrStock` returned a negative value. -/
  | outOfStock
  /-- 200 `{code:0, data:{request_id}}`. -/
  | accepted (requestID : String)
deriving DecidableEq, Repr

/-- HTTP status code of each `secKill` response. -/
def SecKillResp.httpStatus : SecKillResp → Nat
  | SecKillResp.invalidBody => 400
  | SecKillResp.productNotFound => 404
  | SecKillResp.notInWindow => 400
  | SecKillResp.alreadyBought => 400
  | SecKillResp.outOfStock => 400
  | SecKillResp.accepted _ => 200

/-- `secKill` from `internal/router/router.go` (the Kafka-producer
variant under src): bind and normalize the body, look up the product,
check the sale window, reject a repeat purchaser, atomically decrement
the Redis stock via `luaDecrStock`, then publish the order message and
answer 200 with a fresh request id.  `now` is the `time.Now()` instant
and `newRid` the `uuid.New().String()` value; publishing is modelled as
succeeding (the rollback-on-publish-failure branch carries no claim). -/
def secKill (st : SrvState) (now : Int) (pid : Nat) (uid : Int) (qty : Int)
    (newRid : String) : SecKillResp × SrvState :=
  if pid = 0 ∨ uid = 0 then (SecKillResp.invalidBody, st)
  else
    let q := if qty ≤ 0 then 1 else qty
    match findProduct st.products pid with
    | none => (SecKillResp.productNotFound, st)
    | some prod =>
      if now < prod.startTime ∨ now > prod.endTime then (SecKillResp.notInWindow, st)
      else if (st.orders.any (fun o =>
          o.userID == uid && o.productID == pid && !(o.status == 2))) then
        (SecKillResp.alreadyBought, st)
      else
        let res := luaDecrStock st.stock pid q
        if res.1 < 0 then (SecKillResp.outOfStock, st)
        else
          let msg : OrderMessage :=
            { requestID := newRid, productID := pid, userID := uid
              quantity := q, amount := prod.salePrice * q }
          (SecKillResp.accepted newRid,
            { st with stock := res.2, kafka := st.kafka ++ [msg] })

/-- The responses of `getResult` (`internal/router/router.go`). -/
inductive ResultResp where
  /-- 400: empty `request_id` path parameter. -/
  | missingParam
  /-- 200 `{status:"pending"}`: no order row yet, treated as queued. -/
  | pendingSynth
  /-- 200 `{status:"created", order_no, request_id}`. -/
  | created (orderNo : String) (requestID : String)
deriving DecidableEq, Repr

/-- HTTP status code of each `getResult` response. -/
def ResultResp.httpStatus : ResultResp → Nat
  | ResultResp.missingParam => 400
  | ResultResp.pendingSynth => 200
  | ResultResp.created _ _ => 200

/-- `getResult` from `internal/router/router.go`: look the order up by
request id; a miss answers a synthesized `pending`, a hit answers
`created` with the order number. -/
def getResult (orders : List OrderRow) (rid : String) : ResultResp :=
  if rid = "" then ResultResp.missingParam
  else
    match orders.find? (fun o => o.requestID == rid) with
    | none => ResultResp.pendingSynth
    | some o => ResultResp.created o.orderNo o.requestID

/-- One Redis Stream outbox entry as the relay sees it
(`internal/queue` relay).  `payload` is the `parseOrderEvent` result:
`none` embeds an entry whose field parsing fails (missing field, numeric
parse error, or `Validate` rejection). -/
structure StreamEntry where
  id : Nat
  payload : Option OrderMessage
deriving DecidableEq, Repr

/-- What `Relay.processOne` did with one entry. -/
structure RelayStep where
  /-- the entry was `XACK`-ed and `XDEL`-eted -/
  acked : Bool
  /-- the event of the entry was published to Kafka -/
  published : Bool
  /-- `processOne` returned an error (publish failure) -/
  failed : Bool
deriving DecidableEq, Repr

/-- `Relay.processOne` (`internal/queue` relay): a poison entry (parse
failure) is acked-and-deleted without publishing; otherwise publish to
Kafka — on success ack-and-delete, on failure return the error without
acking.  `pubOk id` tells whether the Kafka publish for entry `id`
succeeds; the Redis ack pipeline itself is modelled as reliable. -/
def relayProcessOne (pubOk : Nat → Bool) (e : StreamEntry) : RelayStep :=
  match e.payload with
  | none => ⟨true, false, false⟩
  | some _ =>
    if pubOk e.id then ⟨true, true, false⟩
    else ⟨false, false, true⟩

/-- The per-batch loop of `Relay.Run`: entries are processed in order; a
`processOne` error breaks out of the batch.  Returns the ids that were
acked-and-deleted and the entries still pending afterwards (an acked
entry leaves the pending list and the stream; an unprocessed or failed
entry stays pending). -/
def relayProcessBatch (pubOk : Nat → Bool) : List StreamEntry → List Nat × List StreamEntry
  | [] => ([], [])
  | e :: es =>
    let s := relayProcessOne pubOk e
    if s.failed then ([], e :: es)
    else
      let rest := relayProcessBatch pubOk es
      (e.id :: rest.1, rest.2)

/-- The read step of a `Relay.Run` iteration: the pending
entries (stream cursor `0`) are drained first; only when none are
pending are new entries read. -/
def relayIterationRead (pending newEntries : List StreamEntry) : List StreamEntry :=
  if pending.isEmpty then newEntries else pending


theorem stockGet_set_self (s : StockStore) (pid : Nat) (v : Int) :
    stockGet (stockSet s pid v) pid = v := by
  simp [stockGet, stockSet]

/-- C2: for every stock value and requested quantity q > 0, one
evaluation of `luaDecrStock` returns and stores s - q when s ≥ q, and
when s < q it returns -1 and leaves the store untouched; the buy handler
then answers HTTP 400 (out of stock) and mutates no state. -/
theorem c2_atomic_stock_reservation :
    (∀ (s : StockStore) (pid : Nat) (q : Int), 0 < q →
      (q ≤ stockGet s pid →
        (luaDecrStock s pid q).1 = stockGet s pid - q ∧
        stockGet (luaDecrStock s pid q).2 pid = stockGet s pid - q) ∧
      (stockGet s pid < q →
        (luaDecrStock s pid q).1 = -1 ∧ (luaDecrStock s pid q).2 = s)) ∧
    (∀ (st : SrvState) (now : Int) (pid : Nat) (uid : Int) (qty : Int) (rid : String)
      (prod : Product),
      ¬(pid = 0 ∨ uid = 0) →
      findProduct st.products pid = some prod →
      ¬(now < prod.startTime ∨ now > prod.endTime) →
      (st.orders.any fun o => o.userID == uid && o.productID == pid && !(o.status == 2)) = false →
      stockGet st.stock pid < (if qty ≤ 0 then 1 else qty) →
      secKill st now pid uid qty rid = (SecKillResp.outOfStock, st) ∧
      (secKill st now pid uid qty rid).1.httpStatus = 400) := by
  constructor
  · intro s pid q _
    constructor
    · intro hle
      have h : stockGet s pid ≥ q := hle
      simp [luaDecrStock, h, stockGet_set_self]
    · intro hlt
      have h : ¬ stockGet s pid ≥ q := by omega
      simp [luaDecrStock, h]
  · intro st now pid uid qty rid prod hbind hprod hwin hdup hstock
    have hlt : (luaDecrStock st.stock pid (if qty ≤ 0 then 1 else qty)).1 < 0 := by
      have h : ¬ stockGet st.stock pid ≥ (if qty ≤ 0 then 1 else qty) := by omega
      simp [luaDecrStock, h]
    refine ⟨?_, ?_⟩ <;>
      simp [secKill, hbind, hprod, hwin, hdup, hlt, SecKillResp.httpStatus]

/-- C2 witness: the script and the handler evaluated at a concrete
out-of-stock input (stock 1, quantity 2). -/
theorem c2_atomic_stock_reservation_witness :
    ((luaDecrStock [(1, 5)] 1 2).1 = 3 ∧ stockGet (luaDecrStock [(1, 5)] 1 2).2 1 = 3) ∧
    ((luaDecrStock [(1, 1)] 1 2).1 = -1 ∧ (luaDecrStock [(1, 1)] 1 2).2 = [(1, 1)]) ∧
    secKill ⟨[⟨1, 100, 0, 10⟩], [], [(1, 1)], []⟩ 5 1 7 2 "r1" =
      (SecKillResp.outOfStock, ⟨[⟨1, 100, 0, 10⟩], [], [(1, 1)], []⟩) := by
  refine ⟨?_, ?_, ?_⟩
  · have h := (c2_atomic_stock_reservation.1 [(1, 5)] 1 2 (by decide)).1 (by decide)
    simpa [stockGet] using h
  · have h := (c2_atomic_stock_reservation.1 [(1, 1)] 1 2 (by decide)).2 (by decide)
    simpa [stockGet] using h
  · exact (c2_atomic_stock_reservation.2 ⟨[⟨1, 100, 0, 10⟩], [], [(1, 1)], []⟩ 5 1 7 2 "r1"
      ⟨1, 100, 0, 10⟩ (by decide) (by decide) (by decide) (by decide) (by decide)).1

/-- C5: the first `compensateStockOnce` for a request id acquires the
lock, increments the stock by the quantity and reports `true`; once the
lock is held every invocation reports `false` and returns the state
unchanged; after any invocation the lock is held — so restoration is
applied at most once per request id. -/
theorem c5_compensation_at_most_once :
    ∀ (kv : KV) (rid : String) (pid : Nat) (q : Int),
      (kv.compLocks.contains rid = false →
        (compensateStockOnce kv rid pid q).1 = true ∧
        stockGet (compensateStockOnce kv rid pid q).2.stock pid = stockGet kv.stock pid + q ∧
        (compensateStockOnce kv rid pid q).2.compLocks.contains rid = true) ∧
      (kv.compLocks.contains rid = true →
        compensateStockOnce kv rid pid q = (false, kv)) ∧
      (compensateStockOnce kv rid pid q).2.compLocks.contains rid = true := by
  intro kv rid pid q
  refine ⟨fun h => ?_, fun h => ?_, ?_⟩
  · have h' : rid ∉ kv.compLocks := by simpa using h
    simp [compensateStockOnce, h', stockGet_set_self]
  · have h' : rid ∈ kv.compLocks := by simpa using h
    simp [compensateStockOnce, h']
  · by_cases h' : rid ∈ kv.compLocks <;>
      simp [compensateStockOnce, h']

/-- C5 witness: first call applies (+2 on a stock of 5) and locks;
the repeated call is rejected and changes nothing. -/
theorem c5_compensation_at_most_once_witness :
    ((compensateStockOnce ⟨[(1, 5)], []⟩ "r" 1 2).1 = true ∧
      stockGet (compensateStockOnce ⟨[(1, 5)], []⟩ "r" 1 2).2.stock 1 =
        stockGet [(1, 5)] 1 + 2 ∧
      (compensateStockOnce ⟨[(1, 5)], []⟩ "r" 1 2).2.compLocks.contains "r" = true) ∧
    compensateStockOnce (compensateStockOnce ⟨[(1, 5)], []⟩ "r" 1 2).2 "r" 1 2 =
      (false, (compensateStockOnce ⟨[(1, 5)], []⟩ "r" 1 2).2) := by
  refine ⟨(c5_compensation_at_most_once ⟨[(1, 5)], []⟩ "r" 1 2).1 (by decide), ?_⟩
  exact (c5_compensation_at_most_once (compensateStockOnce ⟨[(1, 5)], []⟩ "r" 1 2).2 "r" 1 2).2.1
    ((c5_compensation_at_most_once ⟨[(1, 5)], []⟩ "r" 1 2).1 (by decide)).2.2

/-- C7 counterexample: on a database with no order row for the request
id, `getResult` answers HTTP 200 with a synthesized `pending` status —
it does not report not-found. -/
theorem c7_counterexample_pending_on_miss :
    getResult [] "deadbeef" = ResultResp.pendingSynth ∧
    (getResult [] "deadbeef").httpStatus = 200 := by
  decide

/-- C7 as amended: for every request id with no matching order row, the
result endpoint answers HTTP 200 with the synthesized status `pending`
(src getResult never reports not-found for an unknown id). -/
theorem c7_result_unknown_id_pending :
    ∀ (orders : List OrderRow) (rid : String), rid ≠ "" →
      orders.find? (fun o => o.requestID == rid) = none →
      getResult orders rid = ResultResp.pendingSynth ∧
      (getResult orders rid).httpStatus = 200 := by
  intro orders rid hrid hmiss
  simp [getResult, hrid, hmiss, ResultResp.httpStatus]

/-- C7 witness: the amended statement evaluated at the empty orders
table. -/
theorem c7_result_unknown_id_pending_witness :
    getResult [] "deadbeef" = ResultResp.pendingSynth ∧
    (getResult [] "deadbeef").httpStatus = 200 :=
  c7_result_unknown_id_pending [] "deadbeef" (by decide) (by decide)

/-- C8 counterexample: a buy with quantity 2 (≠ 1) is not rejected: the
handler accepts it, decrements the stock counter by 2 (10 → 8) and
publishes the message with quantity 2 and amount 200. -/
theorem c8_counterexample_quantity_two_accepted :
    (secKill ⟨[⟨1, 100, 0, 10⟩], [], [(1, 10)], []⟩ 5 1 7 2 "r1").1 =
      SecKillResp.accepted "r1" ∧
    stockGet (secKill ⟨[⟨1, 100, 0, 10⟩], [], [(1, 10)], []⟩ 5 1 7 2 "r1").2.stock 1 = 8 ∧
    (secKill ⟨[⟨1, 100, 0, 10⟩], [], [(1, 10)], []⟩ 5 1 7 2 "r1").2.kafka =
      [⟨"r1", 1, 7, 2, 200⟩] := by
  decide

/-- C8 as amended: the handler normalizes a quantity ≤ 0 to 1 and
accepts every quantity ≥ 1 unchanged; it never rejects a request for
having quantity ≠ 1, and performs the stock decrement and the publish
with the normalized quantity. -/
theorem c8_quantity_normalized_not_rejected :
    ∀ (st : SrvState) (now : Int) (pid : Nat) (uid : Int) (qty : Int) (rid : String)
      (prod : Product),
      ¬(pid = 0 ∨ uid = 0) →
      findProduct st.products pid = some prod →
      ¬(now < prod.startTime ∨ now > prod.endTime) →
      (st.orders.any fun o => o.userID == uid && o.productID == pid && !(o.status == 2)) = false →
      (if qty ≤ 0 then 1 else qty) ≤ stockGet st.stock pid →
      secKill st now pid uid qty rid =
        (SecKillResp.accepted rid,
          { st with
              stock := stockSet st.stock pid
                (stockGet st.stock pid - (if qty ≤ 0 then 1 else qty))
              kafka := st.kafka ++
                [{ requestID := rid, productID := pid, userID := uid
                   quantity := if qty ≤ 0 then 1 else qty
                   amount := prod.salePrice * (if qty ≤ 0 then 1 else qty) }] }) := by
  intro st now pid uid qty rid prod hbind hprod hwin hdup hstock
  have hge : stockGet st.stock pid ≥ (if qty ≤ 0 then 1 else qty) := hstock
  have hq : 0 < (if qty ≤ 0 then 1 else qty) := by split <;> omega
  have hres :
      luaDecrStock st.stock pid (if qty ≤ 0 then 1 else qty) =
        (stockGet st.stock pid - (if qty ≤ 0 then 1 else qty),
          stockSet st.stock pid (stockGet st.stock pid - (if qty ≤ 0 then 1 else qty))) := by
    simp [luaDecrStock, hge]
  have hnn : ¬ (stockGet st.stock pid - (if qty ≤ 0 then 1 else qty) < 0) := by omega
  simp [secKill, hbind, hprod, hwin, hdup, hres, hnn]

/-- C8 witness: the amended statement evaluated at quantity 2 against a
stock of 10. -/
theorem c8_quantity_normalized_not_rejected_witness :
    secKill ⟨[⟨1, 100, 0, 10⟩], [], [(1, 10)], []⟩ 5 1 7 2 "r1" =
      (SecKillResp.accepted "r1",
        { products := [⟨1, 100, 0, 10⟩]
          orders := []
          stock := stockSet [(1, 10)] 1 (stockGet [(1, 10)] 1 - 2)
          kafka := [] ++ [{ requestID := "r1", productID := 1, userID := 7
                            quantity := 2, amount := 100 * 2 }] }) := by
  have h := c8_quantity_normalized_not_rejected ⟨[⟨1, 100, 0, 10⟩], [], [(1, 10)], []⟩
    5 1 7 2 "r1" ⟨1, 100, 0, 10⟩ (by decide) (by decide) (by decide) (by decide) (by decide)
  simpa using h

/-- C1: the happy path fails on the program.  With product 1 (window
open, price 100) and the stock counter preheated to 1, the first buy is
accepted with the fresh request id r-1 (the 200 response carries only the
request id — `secKill` emits no status field) and the message is
published; but `secKill` writes no pending `OrderRequest` row, so when
the consumer processes that message once it takes the missing-row branch:
it commits, creates no order, synthesizes a
`failed(request_state_missing)` row, and compensation restores the stock
to 1; `getResult` then answers the synthesized `pending`.  This
contradicts the claim (one order, `OrderRequest` success, result
`created`) and the comment in `consumer.go` that the API writes the
pending row first. -/
theorem c1_happy_path_fails_on_src :
    secKill ⟨[⟨1, 100, 0, 10⟩], [], [(1, 1)], []⟩ 5 1 7 1 "r-1" =
      (SecKillResp.accepted "r-1",
        ⟨[⟨1, 100, 0, 10⟩], [], [(1, 0), (1, 1)], [⟨"r-1", 1, 7, 1, 100⟩]⟩) ∧
    (processMessage ⟨[], []⟩ ⟨[(1, 0), (1, 1)], []⟩
      (some ⟨"r-1", 1, 7, 1, 100⟩)).outcome = ProcOutcome.committed ∧
    (processMessage ⟨[], []⟩ ⟨[(1, 0), (1, 1)], []⟩
      (some ⟨"r-1", 1, 7, 1, 100⟩)).db.orders = [] ∧
    ((findRequest (processMessage ⟨[], []⟩ ⟨[(1, 0), (1, 1)], []⟩
        (some ⟨"r-1", 1, 7, 1, 100⟩)).db "r-1").map fun x => (x.status, x.errorMsg)) =
      some (OrderRequestStatus.failed, "request_state_missing") ∧
    stockGet (processMessage ⟨[], []⟩ ⟨[(1, 0), (1, 1)], []⟩
      (some ⟨"r-1", 1, 7, 1, 100⟩)).kv.stock 1 = 1 ∧
    getResult (processMessage ⟨[], []⟩ ⟨[(1, 0), (1, 1)], []⟩
      (some ⟨"r-1", 1, 7, 1, 100⟩)).db.orders "r-1" = ResultResp.pendingSynth := by
  decide

/-- C4 counterexample: two buys by the same user for the same product
(any client token — the handler reads none), where the first passed the
reservation with OK: the second call answers with its own freshly minted
request id b, not the first id a. -/
theorem c4_counterexample_fresh_id_per_call :
    (secKill ⟨[⟨1, 100, 0, 10⟩], [], [(1, 2)], []⟩ 5 1 7 1 "a").1 =
      SecKillResp.accepted "a" ∧
    (secKill (secKill ⟨[⟨1, 100, 0, 10⟩], [], [(1, 2)], []⟩ 5 1 7 1 "a").2
      5 1 7 1 "b").1 = SecKillResp.accepted "b" ∧
    (secKill (secKill ⟨[⟨1, 100, 0, 10⟩], [], [(1, 2)], []⟩ 5 1 7 1 "a").2
      5 1 7 1 "b").1 ≠ SecKillResp.accepted "a" := by
  decide

/-- C4 as amended: the buy handler performs no idempotency lookup and
reads no client token; every call that reaches the accept branch answers
with the request id freshly generated for that call, so a retry whose
fresh id differs from the first one (distinct UUIDs) receives a
different request id. -/
theorem c4_retry_gets_fresh_id :
    ∀ (st : SrvState) (now : Int) (pid : Nat) (uid : Int) (rid1 rid2 : String)
      (prod : Product),
      ¬(pid = 0 ∨ uid = 0) →
      findProduct st.products pid = some prod →
      ¬(now < prod.startTime ∨ now > prod.endTime) →
      (st.orders.any fun o => o.userID == uid && o.productID == pid && !(o.status == 2)) = false →
      1 ≤ stockGet st.stock pid →
      (secKill st now pid uid 1 rid2).1 = SecKillResp.accepted rid2 ∧
      (rid1 ≠ rid2 → (secKill st now pid uid 1 rid2).1 ≠ SecKillResp.accepted rid1) := by
  intro st now pid uid rid1 rid2 prod hbind hprod hwin hdup hstock
  have hge : stockGet st.stock pid ≥ (1 : Int) := hstock
  have hres : luaDecrStock st.stock pid 1 =
      (stockGet st.stock pid - 1, stockSet st.stock pid (stockGet st.stock pid - 1)) := by
    simp [luaDecrStock, hge]
  have hnn : ¬ (stockGet st.stock pid - 1 < 0) := by omega
  have haccept : (secKill st now pid uid 1 rid2).1 = SecKillResp.accepted rid2 := by
    simp [secKill, hbind, hprod, hwin, hdup, hres, hnn]
  refine ⟨haccept, fun hne hcon => ?_⟩
  rw [haccept] at hcon
  simp only [SecKillResp.accepted.injEq] at hcon
  exact hne hcon.symm

/-- C4 witness: the amended statement applied to the state right after a
first accepted buy (stock 2 → 1, message with id a published); the retry
with fresh id b is accepted as b and differs from accepted a. -/
theorem c4_retry_gets_fresh_id_witness :
    (secKill ⟨[⟨1, 100, 0, 10⟩], [], [(1, 1), (1, 2)], [⟨"a", 1, 7, 1, 100⟩]⟩
      5 1 7 1 "b").1 = SecKillResp.accepted "b" ∧
    (secKill ⟨[⟨1, 100, 0, 10⟩], [], [(1, 1), (1, 2)], [⟨"a", 1, 7, 1, 100⟩]⟩
      5 1 7 1 "b").1 ≠ SecKillResp.accepted "a" := by
  have h := c4_retry_gets_fresh_id
    ⟨[⟨1, 100, 0, 10⟩], [], [(1, 1), (1, 2)], [⟨"a", 1, 7, 1, 100⟩]⟩
    5 1 7 "a" "b" ⟨1, 100, 0, 10⟩ (by decide) (by decide) (by decide) (by decide) (by decide)
  exact ⟨h.1, h.2 (by decide)⟩


/-- C3: a failed (terminal) `OrderRequest` row is resurrected by the
unique-conflict reconciliation `syncRequestStatusFromOrder`, because its
`UPDATE ... WHERE request_id = ?` carries no `status = pending` guard:
with an orders row for the same request id present, the failed row is
flipped to `success` — the code contradicts the terminal-absorbing
invariant that its sibling paths (`markRequestFailed`, the in-transaction
CAS) enforce. -/
theorem c3_sync_resurrects_failed_row :
    findRequest
      (syncRequestStatusFromOrder
        ⟨[⟨"r1", 7, 1, 1, 100, OrderRequestStatus.failed, "", "duplicate_purchase"⟩],
          [⟨"SKr1", 7, 1, 1, 100, 0, "r1"⟩]⟩ "r1") "r1" =
      some ⟨"r1", 7, 1, 1, 100, OrderRequestStatus.success, "SKr1", ""⟩ ∧
    (findRequest
      ⟨[⟨"r1", 7, 1, 1, 100, OrderRequestStatus.failed, "", "duplicate_purchase"⟩],
        [⟨"SKr1", 7, 1, 1, 100, 0, "r1"⟩]⟩ "r1").map (fun r => r.status) =
      some OrderRequestStatus.failed := by
  decide

/-- C6 counterexample: processing a message whose request id has no
`OrderRequest` row does not leave the stock counter unchanged — the
compensation script INCRBYs it on first lock acquisition (stock 5 → 6
for quantity 1). -/
theorem c6_counterexample_stock_incremented :
    stockGet (processMessage ⟨[], []⟩ ⟨[(1, 5)], []⟩
      (some ⟨"r1", 1, 7, 1, 100⟩)).kv.stock 1 = 6 ∧
    stockGet [(1, 5)] 1 = 5 := by
  decide

/-- C6 as amended: on a message with no `OrderRequest` row the consumer
synthesizes a failed row with reason `request_state_missing`, sets the
compensation marker, commits, and increments the product stock counter by
the quantity of the message (rather than leaving it unchanged). -/
theorem c6_missing_row_self_heal :
    ∀ (db : DB) (kv : KV) (m : OrderMessage),
      m.validate = true →
      findRequest db m.requestID = none →
      kv.compLocks.contains m.requestID = false →
      (processMessage db kv (some m)).outcome = ProcOutcome.committed ∧
      findRequest (processMessage db kv (some m)).db m.requestID =
        some ⟨m.requestID, m.userID, m.productID, m.quantity, m.amount,
          OrderRequestStatus.failed, "", "request_state_missing"⟩ ∧
      (processMessage db kv (some m)).kv.compLocks.contains m.requestID = true ∧
      stockGet (processMessage db kv (some m)).kv.stock m.productID =
        stockGet kv.stock m.productID + m.quantity := by
  intro db kv m hv hmiss hlock
  have hv' : ¬ m.validate = false := by simp [hv]
  have hlock' : m.requestID ∉ kv.compLocks := by simpa using hlock
  have hrow : findRequest (createMissingFailedRequest db m "request_state_missing")
      m.requestID =
      some ⟨m.requestID, m.userID, m.productID, m.quantity, m.amount,
        OrderRequestStatus.failed, "", "request_state_missing"⟩ := by
    unfold createMissingFailedRequest
    rw [hmiss]
    simp [findRequest]
  refine ⟨?_, ?_, ?_, ?_⟩ <;>
    simp [processMessage, hv', hmiss, hrow, compensateStockOnce, hlock',
      stockGet_set_self]

/-- C6 witness: the amended statement evaluated on an empty database and
a fresh compensation lock. -/
theorem c6_missing_row_self_heal_witness :
    (processMessage ⟨[], []⟩ ⟨[(1, 5)], []⟩ (some ⟨"r1", 1, 7, 1, 100⟩)).outcome =
      ProcOutcome.committed ∧
    findRequest (processMessage ⟨[], []⟩ ⟨[(1, 5)], []⟩
      (some ⟨"r1", 1, 7, 1, 100⟩)).db "r1" =
      some ⟨"r1", 7, 1, 1, 100, OrderRequestStatus.failed, "", "request_state_missing"⟩ ∧
    (processMessage ⟨[], []⟩ ⟨[(1, 5)], []⟩
      (some ⟨"r1", 1, 7, 1, 100⟩)).kv.compLocks.contains "r1" = true ∧
    stockGet (processMessage ⟨[], []⟩ ⟨[(1, 5)], []⟩
      (some ⟨"r1", 1, 7, 1, 100⟩)).kv.stock 1 = stockGet [(1, 5)] 1 + 1 :=
  c6_missing_row_self_heal ⟨[], []⟩ ⟨[(1, 5)], []⟩ ⟨"r1", 1, 7, 1, 100⟩
    (by decide) (by decide) (by decide)

theorem relayProcessBatch_stops (pubOk : Nat → Bool) (pre : List StreamEntry)
    (e : StreamEntry) (rest : List StreamEntry)
    (hpre : ∀ x ∈ pre, (relayProcessOne pubOk x).failed = false)
    (he : (relayProcessOne pubOk e).failed = true) :
    relayProcessBatch pubOk (pre ++ e :: rest) = (pre.map (fun x => x.id), e :: rest) := by
  induction pre with
  | nil => simp [relayProcessBatch, he]
  | cons x xs ih =>
      have hx : (relayProcessOne pubOk x).failed = false := hpre x (by simp)
      have ihr := ih (fun y hy => hpre y (by simp [hy]))
      simp [relayProcessBatch, hx, ihr]

/-- C9: an outbox entry is acked-and-deleted exactly when its publish
succeeded or it is poison (parse failure, acked without publishing); a
publish failure leaves the entry unacked, stops the current batch (the
earlier, non-failing entries were acked, the failing entry and its
successors stay pending), and the next iteration reads the pending
entries first, so the failed entry is retried. -/
theorem c9_relay_ack_discipline :
    ∀ (pubOk : Nat → Bool) (pre : List StreamEntry) (e : StreamEntry)
      (rest : List StreamEntry),
      (∀ x, (relayProcessOne pubOk x).acked = true ↔
        ((relayProcessOne pubOk x).published = true ∨ x.payload = none)) ∧
      (∀ x, x.payload = none →
        (relayProcessOne pubOk x).acked = true ∧
        (relayProcessOne pubOk x).published = false) ∧
      ((∀ x ∈ pre, (relayProcessOne pubOk x).failed = false) →
        (relayProcessOne pubOk e).failed = true →
        (relayProcessOne pubOk e).acked = false ∧
        relayProcessBatch pubOk (pre ++ e :: rest) = (pre.map (fun x => x.id), e :: rest) ∧
        ∀ newEntries, relayIterationRead (e :: rest) newEntries = e :: rest) := by
  intro pubOk pre e rest
  refine ⟨?_, ?_, fun hpre he => ⟨?_, relayProcessBatch_stops pubOk pre e rest hpre he, ?_⟩⟩
  · intro x
    cases hx : x.payload with
    | none => simp [relayProcessOne, hx]
    | some m =>
        by_cases hp : pubOk x.id = true <;> simp [relayProcessOne, hx, hp]
  · intro x hx
    simp [relayProcessOne, hx]
  · cases hx : e.payload with
    | none => simp [relayProcessOne, hx] at he
    | some m =>
        by_cases hp : pubOk e.id = true <;>
          simp [relayProcessOne, hx, hp] at he ⊢
  · intro newEntries
    simp [relayIterationRead]

/-- C9 witness: a batch of a poison entry followed by an entry whose
publish fails — the poison entry is acked without publish, the failing
entry stays pending and heads the next iteration. -/
theorem c9_relay_ack_discipline_witness :
    ((relayProcessOne (fun i => i == 1) ⟨1, none⟩).acked = true ∧
      (relayProcessOne (fun i => i == 1) ⟨1, none⟩).published = false) ∧
    (relayProcessOne (fun i => i == 1) ⟨2, some ⟨"r1", 1, 7, 1, 100⟩⟩).acked = false ∧
    relayProcessBatch (fun i => i == 1)
      [⟨1, none⟩, ⟨2, some ⟨"r1", 1, 7, 1, 100⟩⟩] =
      ([1], [⟨2, some ⟨"r1", 1, 7, 1, 100⟩⟩]) ∧
    relayIterationRead [⟨2, some ⟨"r1", 1, 7, 1, 100⟩⟩] [] =
      [⟨2, some ⟨"r1", 1, 7, 1, 100⟩⟩] := by
  have h := c9_relay_ack_discipline (fun i => i == 1) [⟨1, none⟩]
    ⟨2, some ⟨"r1", 1, 7, 1, 100⟩⟩ []
  have h3 := h.2.2 (by decide) (by decide)
  exact ⟨h.2.1 ⟨1, none⟩ rfl, h3.1, h3.2.1, h3.2.2 []⟩

/-- C10: an undecodable payload or one failing `Validate` is committed
with no database or stock change, and `Validate` rejects exactly the
messages with empty request id, zero product id, non-positive user id,
non-positive quantity, or non-positive amount. -/
theorem c10_consumer_poison_boundary :
    ∀ (db : DB) (kv : KV) (m : OrderMessage),
      processMessage db kv none = ⟨ProcOutcome.committed, db, kv⟩ ∧
      (m.validate = false →
        processMessage db kv (some m) = ⟨ProcOutcome.committed, db, kv⟩) ∧
      (m.validate = false ↔
        (m.requestID = "" ∨ m.productID = 0 ∨ m.userID ≤ 0 ∨ m.quantity ≤ 0 ∨ m.amount ≤ 0)) := by
  intro db kv m
  refine ⟨rfl, fun h => by simp [processMessage, h], ?_⟩
  unfold OrderMessage.validate
  split_ifs with h1 h2 h3 h4 h5 <;> simp_all

/-- C10 witness: a message with an empty request id is poison: it is
committed and leaves both states untouched. -/
theorem c10_consumer_poison_boundary_witness :
    processMessage ⟨[], []⟩ ⟨[(1, 5)], []⟩ none =
      ⟨ProcOutcome.committed, ⟨[], []⟩, ⟨[(1, 5)], []⟩⟩ ∧
    processMessage ⟨[], []⟩ ⟨[(1, 5)], []⟩ (some ⟨"", 1, 7, 1, 100⟩) =
      ⟨ProcOutcome.committed, ⟨[], []⟩, ⟨[(1, 5)], []⟩⟩ ∧
    (OrderMessage.validate ⟨"", 1, 7, 1, 100⟩ = false) := by
  have h := c10_consumer_poison_boundary ⟨[], []⟩ ⟨[(1, 5)], []⟩ ⟨"", 1, 7, 1, 100⟩
  exact ⟨h.1, h.2.1 (by decide), (h.2.2).mpr (by decide)⟩

end FlashSale
